import Mathlib

/-!
Verification of the progress-parsing core of the UnrealBuildTool launcher
(`src/commands.rs`).  The two worker threads spawned by
`create_build_command` and `create_package_command` read child-process
output line by line and classify each line with an if/else-if chain,
sending `ProgressUpdate` values over an mpsc channel.  We embed that
per-line classification and the whole-stream loop as pure Lean
functions.

Modelling notes:
* The regex `\[([0-9]+)/([0-9]+)\]` and `(\d+)%` searches are embedded
  as leftmost-match scanners over the character list; digit runs are
  maximal, which coincides with the greedy regex semantics because each
  digit group is delimited by a mandatory non-digit character.  `\d` is
  Unicode-aware in the `regex` crate and is embedded via the table of
  `Nd` (decimal number) codepoint ranges of the Unicode character
  database (version 14.0); `[0-9]` is the ASCII digits.
* `parse::<f32>` on a captured `\d+` run succeeds exactly when the run
  is all ASCII digits (a non-ASCII decimal digit makes it fail, and the
  code then emits nothing for the line).  Successful parses are
  modelled as the exact integer value: `f32` rounds values above `2^24`
  and saturates to `+inf` above `f32::MAX` (about `3.4e38`), so
  theorems about the numeric value of an emitted fraction restrict the
  captures to below `10^38`, where the conversions are finite and the
  sign (and any bound by another exactly representable value, such as
  `0` or `1`) is preserved by IEEE rounding; the spec's own test
  vectors (`12/48`, `67/100`) are exact in `f32`.
* `reader.lines()` items are `io::Result<String>`; the loop body
  `if let Ok(line) = line_result` skips `Err` items, so the stream is
  modelled as a `List (Except String String)`.
-/

/-- The `ProgressUpdate` enum of `src/commands.rs`. -/
inductive ProgressUpdate where
  /-- A numeric progress update. -/
  | Progress (value : ℚ)
  /-- A stage message update. -/
  | Stage (msg : String)
  /-- The process is finished with a final message. -/
  | Finished (msg : String)
deriving DecidableEq, Repr

/-- Substring containment on character lists, the semantics of Rust's
`str::contains` with a string pattern. -/
def containsSub : List Char → List Char → Bool
  | hay, needle =>
    match hay with
    | [] => needle.isEmpty
    | _ :: t => needle.isPrefixOf hay || containsSub t needle

/-- `line.contains(pat)` from the Rust source. -/
def strContains (line pat : String) : Bool :=
  containsSub line.toList pat.toList

/-- Exact value of an ASCII digit run.  The code obtains the value with
`parse::<f32>`, which equals this exactly below `2^24` and rounds above
it; theorems about emitted values therefore either use `f32`-exact
inputs or restrict the captures (see `capturesBounded`). -/
def digitsToNat (ds : List Char) : Nat :=
  ds.foldl (fun a c => a * 10 + (c.toNat - '0'.toNat)) 0

/-- Attempt to match `\[([0-9]+)/([0-9]+)\]` anchored at the head of the
character list, returning the two captured numbers. -/
def bracketAt (cs : List Char) : Option (Nat × Nat) :=
  match cs with
  | '[' :: rest =>
    match rest.span Char.isDigit with
    | (d1, r1) =>
      if d1.isEmpty then none
      else
        match r1 with
        | '/' :: r2 =>
          match r2.span Char.isDigit with
          | (d2, r3) =>
            if d2.isEmpty then none
            else
              match r3 with
              | ']' :: _ => some (digitsToNat d1, digitsToNat d2)
              | _ => none
        | _ => none
  | _ => none

/-- Leftmost match of `\[([0-9]+)/([0-9]+)\]`, the semantics of
`progress_regex.captures(&line)` in `create_build_command`. -/
def firstBracket : List Char → Option (Nat × Nat)
  | [] => none
  | c :: t =>
    match bracketAt (c :: t) with
    | some x => some x
    | none => firstBracket t

/-- The codepoint ranges of the Unicode `Nd` (decimal number) general
category, Unicode character database version 14.0: the character class
matched by the `regex` crate's Unicode-aware `\d`. -/
def ndRanges : List (Nat × Nat) :=
  [ (0x30, 0x39), (0x660, 0x669), (0x6F0, 0x6F9), (0x7C0, 0x7C9),
    (0x966, 0x96F), (0x9E6, 0x9EF), (0xA66, 0xA6F), (0xAE6, 0xAEF),
    (0xB66, 0xB6F), (0xBE6, 0xBEF), (0xC66, 0xC6F), (0xCE6, 0xCEF),
    (0xD66, 0xD6F), (0xDE6, 0xDEF), (0xE50, 0xE59), (0xED0, 0xED9),
    (0xF20, 0xF29), (0x1040, 0x1049), (0x1090, 0x1099), (0x17E0, 0x17E9),
    (0x1810, 0x1819), (0x1946, 0x194F), (0x19D0, 0x19D9), (0x1A80, 0x1A89),
    (0x1A90, 0x1A99), (0x1B50, 0x1B59), (0x1BB0, 0x1BB9), (0x1C40, 0x1C49),
    (0x1C50, 0x1C59), (0xA620, 0xA629), (0xA8D0, 0xA8D9), (0xA900, 0xA909),
    (0xA9D0, 0xA9D9), (0xA9F0, 0xA9F9), (0xAA50, 0xAA59), (0xABF0, 0xABF9),
    (0xFF10, 0xFF19), (0x104A0, 0x104A9), (0x10D30, 0x10D39), (0x11066, 0x1106F),
    (0x110F0, 0x110F9), (0x11136, 0x1113F), (0x111D0, 0x111D9), (0x112F0, 0x112F9),
    (0x11450, 0x11459), (0x114D0, 0x114D9), (0x11650, 0x11659), (0x116C0, 0x116C9),
    (0x11730, 0x11739), (0x118E0, 0x118E9), (0x11950, 0x11959), (0x11C50, 0x11C59),
    (0x11D50, 0x11D59), (0x11DA0, 0x11DA9), (0x16A60, 0x16A69), (0x16AC0, 0x16AC9),
    (0x16B50, 0x16B59), (0x1D7CE, 0x1D7FF), (0x1E140, 0x1E149), (0x1E2F0, 0x1E2F9),
    (0x1E950, 0x1E959), (0x1FBF0, 0x1FBF9) ]

/-- Whether a character is a Unicode decimal digit (`\d` in the
`regex` crate). -/
def isNd (c : Char) : Bool :=
  ndRanges.any (fun r => decide (r.1 ≤ c.toNat) && decide (c.toNat ≤ r.2))

/-- Attempt to match `(\d+)%` anchored at the head of the character
list, returning the captured digit run. -/
def percentCaptureAt (cs : List Char) : Option (List Char) :=
  match cs.span isNd with
  | (d, r) =>
    if d.isEmpty then none
    else
      match r with
      | '%' :: _ => some d
      | _ => none

/-- Leftmost match of `(\d+)%`, the semantics of
`percentage_regex.captures(&line)` in `create_package_command`: the
captured digit run of the leftmost match, not yet parsed. -/
def firstPercentCapture : List Char → Option (List Char)
  | [] => none
  | c :: t =>
    match percentCaptureAt (c :: t) with
    | some x => some x
    | none => firstPercentCapture t

/-- The `num_str.as_str().parse::<f32>()` step on a captured `\d+`
run: it succeeds exactly when every captured character is an ASCII
digit (the run is all-`Nd` by construction, and `parse` accepts no
other digit characters); the value is modelled exactly. -/
def parseCapture (ds : List Char) : Option Nat :=
  if ds.all Char.isDigit then some (digitsToNat ds) else none

/-- The terminal success marker both parsers look for. -/
def successMarker : String := "BUILD SUCCESSFUL"

/-- Stage banner recognised by the package parser. -/
def buildStartedBanner : String := "********** BUILD COMMAND STARTED **********"

/-- Stage banner recognised by the package parser. -/
def buildCompletedBanner : String := "********** BUILD COMMAND COMPLETED **********"

/-- Stage banner recognised by the package parser. -/
def cookStartedBanner : String := "********** COOK COMMAND STARTED **********"

/-- Stage banner recognised by the package parser. -/
def cookCompletedBanner : String := "********** COOK COMMAND COMPLETED **********"

/-- Stage banner recognised by the package parser. -/
def stageStartedBanner : String := "********** STAGE COMMAND STARTED **********"

/-- Stage banner recognised by the package parser. -/
def packageStartedBanner : String := "********** PACKAGE COMMAND STARTED **********"

/-- Stage banner recognised by the package parser. -/
def packageCompletedBanner : String := "********** PACKAGE COMMAND COMPLETED **********"

/-- The per-line classification of the worker thread in
`create_build_command` (`src/commands.rs` lines 66–81): the events sent
on the channel for one `Ok` line. -/
def processBuildLine (line : String) : List ProgressUpdate :=
  if strContains line successMarker then
    [ProgressUpdate.Finished "Build finished"]
  else
    match firstBracket line.toList with
    | some (current, total) =>
      if 0 < total then
        [ProgressUpdate.Progress ((current : ℚ) / (total : ℚ))]
      else
        []
    | none => []

/-- The per-line classification of the worker thread in
`create_package_command` (`src/commands.rs` lines 142–173): the events
sent on the channel for one `Ok` line.  The file-explorer side effect
on the success branch emits no event and is not modelled. -/
def processPackageLine (line : String) : List ProgressUpdate :=
  if strContains line buildStartedBanner then
    [ProgressUpdate.Stage "Build started"]
  else if strContains line buildCompletedBanner then
    [ProgressUpdate.Stage "Build completed"]
  else if strContains line cookStartedBanner then
    [ProgressUpdate.Stage "Cooking..."]
  else if strContains line cookCompletedBanner then
    [ProgressUpdate.Stage "Cook completed"]
  else if strContains line stageStartedBanner then
    [ProgressUpdate.Stage "Staging..."]
  else if strContains line packageStartedBanner then
    [ProgressUpdate.Stage "Packaging..."]
  else if strContains line packageCompletedBanner then
    [ProgressUpdate.Stage "Package completed"]
  else if strContains line successMarker then
    [ProgressUpdate.Finished "Package finished"]
  else
    match firstPercentCapture line.toList with
    | some ds =>
      match parseCapture ds with
      | some percent =>
        [ProgressUpdate.Progress ((percent : ℚ) / 100)]
      | none => []
    | none => []

/-- Which of the two commands produced the parser: selects the
recogniser profile. -/
inductive Profile where
  | build
  | package
deriving DecidableEq, Repr

/-- Per-line classification for a given recogniser profile. -/
def processLine : Profile → String → List ProgressUpdate
  | Profile.build, l => processBuildLine l
  | Profile.package, l => processPackageLine l

/-- One item of `reader.lines()`: `if let Ok(line) = line_result`
skips `Err` items without emitting anything. -/
def processLineResult (p : Profile) : Except String String → List ProgressUpdate
  | Except.error _ => []
  | Except.ok l => processLine p l

/-- The whole worker loop: `for line_result in reader.lines()` runs to
the end of the stream with no break, concatenating the events of each
line in arrival order. -/
def runWorker (p : Profile) : List (Except String String) → List ProgressUpdate
  | [] => []
  | r :: t => processLineResult p r ++ runWorker p t

/-- Observer: is the event the terminal `Finished` variant. -/
def isFinishedB : ProgressUpdate → Bool
  | ProgressUpdate.Finished _ => true
  | _ => false

/-- Observer: is the event the `Stage` variant. -/
def isStageB : ProgressUpdate → Bool
  | ProgressUpdate.Stage _ => true
  | _ => false

/-- Observer: is the event the `Progress` variant. -/
def isProgressB : ProgressUpdate → Bool
  | ProgressUpdate.Progress _ => true
  | _ => false

/-- Number of terminal `Finished` events in an event sequence. -/
def countFinished (us : List ProgressUpdate) : Nat :=
  us.countP (fun u => isFinishedB u)

/-- Whether every `Ok` line of the stream is free of the terminal
success marker (`Err` items carry no line). -/
def okLinesMarkerFree (rs : List (Except String String)) : Bool :=
  rs.all (fun r =>
    match r with
    | Except.error _ => true
    | Except.ok l => !(strContains l successMarker))

/-- Whether a line matches some rule of the build-profile chain: the
terminal marker or the bracket-counter regex. -/
def matchesBuildRule (l : String) : Bool :=
  strContains l successMarker || (firstBracket l.toList).isSome

/-- Whether a line matches some rule of the package-profile chain: a
stage banner, the terminal marker, or the percent regex. -/
def matchesPackageRule (l : String) : Bool :=
  strContains l buildStartedBanner ||
  strContains l buildCompletedBanner ||
  strContains l cookStartedBanner ||
  strContains l cookCompletedBanner ||
  strContains l stageStartedBanner ||
  strContains l packageStartedBanner ||
  strContains l packageCompletedBanner ||
  strContains l successMarker ||
  (firstPercentCapture l.toList).isSome

/-- Whether a line matches some rule of the given profile's chain. -/
def matchesRule : Profile → String → Bool
  | Profile.build, l => matchesBuildRule l
  | Profile.package, l => matchesPackageRule l

/-- Whether a line contains none of the seven stage banners of the
package-profile chain. -/
def packageBannerFree (l : String) : Bool :=
  !(strContains l buildStartedBanner) &&
  !(strContains l buildCompletedBanner) &&
  !(strContains l cookStartedBanner) &&
  !(strContains l cookCompletedBanner) &&
  !(strContains l stageStartedBanner) &&
  !(strContains l packageStartedBanner) &&
  !(strContains l packageCompletedBanner)

/-- Whether a line matches none of the package-profile rules of higher
priority than the percent recogniser (the seven banners and the
terminal marker). -/
def packageHigherRuleFree (l : String) : Bool :=
  packageBannerFree l && !(strContains l successMarker)

/-- Whether every number captured on the line by the active profile's
regex is below `10^38`, so that its `parse::<f32>` conversion is
finite: a run of 39 or more significant digits parses to `+inf`
(beyond `f32::MAX`), after which the code can emit `inf` or even
`NaN` (`inf/inf`) fractions. -/
def capturesBounded : Profile → String → Bool
  | Profile.build, l =>
    match firstBracket l.toList with
    | some (c, t) => decide (c < 10 ^ 38) && decide (t < 10 ^ 38)
    | none => true
  | Profile.package, l =>
    match firstPercentCapture l.toList with
    | some ds => decide (digitsToNat ds < 10 ^ 38)
    | none => true

/-- Outcome of the launch step of `create_build_command` /
`create_package_command`: the `Command::new("cmd")...spawn()` call
followed by `.expect(...)`.  `started` is the successful path,
`panicked` the `.expect` panic on a spawn error.  The `returnedError`
constructor expresses the alternative of returning an error value to
the caller; the code never produces it, the functions' return type
(`Receiver<ProgressUpdate>`) has no error channel. -/
inductive LaunchOutcome where
  | started
  | returnedError (os : String)
  | panicked (msg : String)
deriving DecidableEq, Repr

/-- The launch step of `create_build_command` (`src/commands.rs` lines
52–58): `.spawn().expect("Failed to execute build command")` panics on
a spawn error, formatting the expect message with the OS error. -/
def buildLaunch (spawnResult : Except String Unit) : LaunchOutcome :=
  match spawnResult with
  | Except.ok _ => LaunchOutcome.started
  | Except.error e =>
    LaunchOutcome.panicked ("Failed to execute build command: " ++ e)

/-- The launch step of `create_package_command` (`src/commands.rs`
lines 127–133): `.spawn().expect("Failed to execute package command")`
panics on a spawn error. -/
def packageLaunch (spawnResult : Except String Unit) : LaunchOutcome :=
  match spawnResult with
  | Except.ok _ => LaunchOutcome.started
  | Except.error e =>
    LaunchOutcome.panicked ("Failed to execute package command: " ++ e)

/-- Observer: did the launch step return an error value to the caller. -/
def isReturnedError : LaunchOutcome → Bool
  | LaunchOutcome.returnedError _ => true
  | _ => false

theorem runWorker_append (p : Profile) (rs1 rs2 : List (Except String String)) :
    runWorker p (rs1 ++ rs2) = runWorker p rs1 ++ runWorker p rs2 := by
  induction rs1 with
  | nil => simp [runWorker]
  | cons r t ih => simp [runWorker, ih]

theorem processBuildLine_no_finished (l : String)
    (h : strContains l successMarker = false) :
    (processBuildLine l).all (fun u => !(isFinishedB u)) = true := by
  unfold processBuildLine
  repeat' split
  all_goals simp_all [isFinishedB]

theorem processPackageLine_no_finished (l : String)
    (h : strContains l successMarker = false) :
    (processPackageLine l).all (fun u => !(isFinishedB u)) = true := by
  unfold processPackageLine
  repeat' split
  all_goals simp_all [isFinishedB]

theorem processBuildLine_no_stage (l : String) :
    (processBuildLine l).all (fun u => !(isStageB u)) = true := by
  unfold processBuildLine
  repeat' split
  all_goals simp [isStageB]

theorem processLine_length_le (p : Profile) (l : String) :
    (processLine p l).length ≤ 1 := by
  cases p with
  | build =>
    simp only [processLine]
    unfold processBuildLine
    repeat' split
    all_goals simp
  | package =>
    simp only [processLine]
    unfold processPackageLine
    repeat' split
    all_goals simp

/-- C1 (counterexample): the run whose stream is two marker lines
followed by a bracket-counter line emits two terminal `Finished`
events, and the last event emitted is a `Progress`, not the terminal
event: the worker loop has no break after sending `Finished`, so
matching the terminal success marker does not stop processing. -/
theorem C1_counterexample :
    runWorker Profile.build
        [Except.ok "BUILD SUCCESSFUL", Except.ok "BUILD SUCCESSFUL",
          Except.ok "[1/2]"] =
      [ProgressUpdate.Finished "Build finished",
        ProgressUpdate.Finished "Build finished",
        ProgressUpdate.Progress ((1 : ℚ) / 2)] ∧
    countFinished
        (runWorker Profile.build
          [Except.ok "BUILD SUCCESSFUL", Except.ok "BUILD SUCCESSFUL",
            Except.ok "[1/2]"]) = 2 :=
  ⟨rfl, by decide⟩

/-- C1 (amended): a line containing the terminal success marker makes
the worker emit a terminal `Finished` event — unconditionally for the
build parser, and for the package parser whenever the line contains
none of the seven stage banners, which are checked first — but
processing does not stop: the events of all subsequent lines are still
emitted after it. -/
theorem C1_marker_emits_finished_and_continues
    (rs1 rs2 : List (Except String String)) (l : String)
    (h : strContains l successMarker = true) :
    runWorker Profile.build (rs1 ++ Except.ok l :: rs2) =
      runWorker Profile.build rs1 ++
        ProgressUpdate.Finished "Build finished" ::
          runWorker Profile.build rs2 ∧
    (packageBannerFree l = true →
      runWorker Profile.package (rs1 ++ Except.ok l :: rs2) =
        runWorker Profile.package rs1 ++
          ProgressUpdate.Finished "Package finished" ::
            runWorker Profile.package rs2) := by
  constructor
  · rw [runWorker_append]
    have hl : processLineResult Profile.build (Except.ok l) =
        [ProgressUpdate.Finished "Build finished"] := by
      simp [processLineResult, processLine, processBuildLine, h]
    rw [runWorker, hl]
    simp
  · intro hb
    unfold packageBannerFree at hb
    simp only [Bool.and_eq_true, Bool.not_eq_true'] at hb
    obtain ⟨⟨⟨⟨⟨⟨b1, b2⟩, b3⟩, b4⟩, b5⟩, b6⟩, b7⟩ := hb
    rw [runWorker_append]
    have hl : processLineResult Profile.package (Except.ok l) =
        [ProgressUpdate.Finished "Package finished"] := by
      simp [processLineResult, processLine, processPackageLine,
        b1, b2, b3, b4, b5, b6, b7, h]
    rw [runWorker, hl]
    simp

/-- C1 (witness): the amended statement at a concrete stream, for both
profiles. -/
theorem C1_witness :
    (runWorker Profile.build
        ([Except.ok "[1/2]"] ++ Except.ok "BUILD SUCCESSFUL" ::
          [Except.ok "[1/4]"]) =
      runWorker Profile.build [Except.ok "[1/2]"] ++
        ProgressUpdate.Finished "Build finished" ::
          runWorker Profile.build [Except.ok "[1/4]"]) ∧
    (runWorker Profile.package
        ([Except.ok "67%"] ++ Except.ok "BUILD SUCCESSFUL" ::
          [Except.ok "68%"]) =
      runWorker Profile.package [Except.ok "67%"] ++
        ProgressUpdate.Finished "Package finished" ::
          runWorker Profile.package [Except.ok "68%"]) :=
  ⟨(C1_marker_emits_finished_and_continues _ _ _ (by decide)).1,
    (C1_marker_emits_finished_and_continues _ _ _ (by decide)).2
      (by decide)⟩

/-- C2 (counterexample): a stream that ends (and even errors mid-read)
without the terminal success marker produces no event at all — in
particular no terminal `Completed`/`Finished` failure event — for
either parser profile. -/
theorem C2_counterexample :
    runWorker Profile.build
        [Except.ok "compiling main.cpp", Except.error "broken pipe"] = [] ∧
    runWorker Profile.package
        [Except.ok "LogInit: ready", Except.error "broken pipe"] = [] :=
  ⟨rfl, rfl⟩

/-- C2 (amended): if no `Ok` line of the stream contains the terminal
success marker, the worker emits no terminal `Finished` event at all:
the event stream simply ends without a terminal event (mid-read I/O
errors are skipped like any non-matching item, and no raw I/O error is
ever emitted, the loop's only output being `ProgressUpdate` values). -/
theorem C2_no_marker_no_terminal_event
    (p : Profile) (rs : List (Except String String))
    (h : okLinesMarkerFree rs = true) :
    (runWorker p rs).all (fun u => !(isFinishedB u)) = true := by
  induction rs with
  | nil => simp [runWorker]
  | cons r t ih =>
    unfold okLinesMarkerFree at h
    rw [List.all_cons, Bool.and_eq_true] at h
    rw [runWorker, List.all_append, Bool.and_eq_true]
    constructor
    · cases r with
      | error e => simp [processLineResult]
      | ok l =>
        have hl : strContains l successMarker = false := by
          have h1 := h.1
          simpa using h1
        cases p with
        | build =>
          simpa [processLineResult, processLine] using
            processBuildLine_no_finished l hl
        | package =>
          simpa [processLineResult, processLine] using
            processPackageLine_no_finished l hl
    · exact ih h.2

/-- C2 (witness): the amended statement at a concrete stream. -/
theorem C2_witness :
    (runWorker Profile.build
        [Except.ok "[1/2]", Except.ok "hello"]).all
      (fun u => !(isFinishedB u)) = true :=
  C2_no_marker_no_terminal_event Profile.build _ (by decide)

/-- C3 (counterexample): progress fractions are not confined to
`[0.0, 1.0]`: the build parser emits `3/2 = 1.5` for the line `[3/2]`
and the package parser emits `250/100 = 2.5` for a line containing
`250%`. -/
theorem C3_counterexample :
    (processBuildLine "[3/2]" =
        [ProgressUpdate.Progress ((3 : ℚ) / 2)] ∧
      ¬((3 : ℚ) / 2 ≤ 1)) ∧
    (processPackageLine "Compiling shaders 250%" =
        [ProgressUpdate.Progress ((250 : ℚ) / 100)] ∧
      ¬((250 : ℚ) / 100 ≤ 1)) :=
  ⟨⟨rfl, by norm_num⟩, ⟨rfl, by norm_num⟩⟩

/-- C3 (amended): every `Progress` event emitted by either parser for
a line whose captured numbers are below `10^38` — so that the `f32`
conversions are finite, making the exact-rational value model
sign-faithful (IEEE parsing and division of finite nonnegative values
cannot produce a negative or `NaN` result) — carries a nonnegative
fraction; the upper bound `1.0` is not enforced (it can be exceeded
when `current > total` or `NN > 100`), and for captures of 39 or more
digits the code itself can emit `inf` or `NaN` (for example on
`[inf-run/inf-run]`, excluded here). -/
theorem C3_progress_fraction_nonneg
    (p : Profile) (l : String) (x : ℚ)
    (h : processLine p l = [ProgressUpdate.Progress x])
    (hb : capturesBounded p l = true) :
    0 ≤ x := by
  cases p with
  | build =>
    simp only [processLine] at h
    unfold processBuildLine at h
    repeat' split at h
    all_goals simp_all
    all_goals subst h
    all_goals positivity
  | package =>
    simp only [processLine] at h
    unfold processPackageLine at h
    repeat' split at h
    all_goals simp_all
    all_goals subst h
    all_goals positivity

/-- C3 (witness): the amended statement at a concrete emitted event. -/
theorem C3_witness : 0 ≤ (1 : ℚ) / 2 :=
  C3_progress_fraction_nonneg Profile.build "[1/2]" ((1 : ℚ) / 2) rfl
    (by decide)

/-- C4 (counterexample): a line may contain a `[current/total]` token
with `total > 0` and still emit no `Progress` event, because the
terminal success marker has higher priority: on
`BUILD SUCCESSFUL [1/2]` the build parser's bracket token is `[1/2]`
yet the only event emitted is `Finished`. -/
theorem C4_counterexample :
    firstBracket "BUILD SUCCESSFUL [1/2]".toList = some (1, 2) ∧
    processBuildLine "BUILD SUCCESSFUL [1/2]" =
      [ProgressUpdate.Finished "Build finished"] ∧
    (processBuildLine "BUILD SUCCESSFUL [1/2]").all
      (fun u => !(isProgressB u)) = true :=
  ⟨by decide, rfl, by decide⟩

/-- C4 (amended): for every line that does not contain the terminal
success marker and whose first `[current/total]` token captures
`(current, total)`: if `total > 0` a single `Progress` event with
fraction `current / total` is emitted, and if `total = 0` no event is
emitted. -/
theorem C4_bracket_counter_rule (l : String) (c t : Nat)
    (h1 : strContains l successMarker = false)
    (h2 : firstBracket l.toList = some (c, t)) :
    (0 < t →
      processBuildLine l = [ProgressUpdate.Progress ((c : ℚ) / (t : ℚ))]) ∧
    (t = 0 → processBuildLine l = []) := by
  unfold String.toList at h2
  constructor
  · intro ht
    simp [processBuildLine, h1, h2, ht]
  · intro ht
    subst ht
    simp [processBuildLine, h1, h2]

/-- C4 (witness): `[12/48]` yields the single event with fraction
`12/48` (which equals `0.25` exactly), and `[0/0]` yields no event. -/
theorem C4_witness :
    processBuildLine "[12/48]" =
      [ProgressUpdate.Progress ((12 : ℚ) / 48)] ∧
    processBuildLine "[0/0]" = [] :=
  ⟨(C4_bracket_counter_rule "[12/48]" 12 48 (by decide) (by decide)).1
      (by decide),
    (C4_bracket_counter_rule "[0/0]" 0 0 (by decide) (by decide)).2 rfl⟩

/-- C5 (counterexample): `\d` in the percent regex is Unicode-aware,
so on the line `٥% 50%` (which contains the bare token `50%` and
matches no higher-priority rule) the leftmost match captures the
Arabic-Indic digit `٥`, `parse::<f32>` fails on it, and no event is
emitted — not a `Progress` with fraction `50/100`. -/
theorem C5_counterexample :
    strContains "٥% 50%" "50%" = true ∧
    packageHigherRuleFree "٥% 50%" = true ∧
    firstPercentCapture "٥% 50%".toList = some [Char.ofNat 0x665] ∧
    processPackageLine "٥% 50%" = [] :=
  ⟨by decide, by decide, by decide, rfl⟩

/-- C5 (amended): for every line matching none of the higher-priority
package rules (the seven stage banners and the terminal success
marker) whose leftmost `\d+%` match captures the digit run `ds`: if
the captured run is all ASCII digits — in particular always on an
all-ASCII line — a single `Progress` event with fraction
`value(ds) / 100` is emitted, and if the capture contains a non-ASCII
decimal digit the `parse` fails and no event is emitted. -/
theorem C5_percent_rule (l : String) (ds : List Char)
    (h1 : packageHigherRuleFree l = true)
    (h2 : firstPercentCapture l.toList = some ds) :
    (ds.all Char.isDigit = true →
      processPackageLine l =
        [ProgressUpdate.Progress ((digitsToNat ds : ℚ) / 100)]) ∧
    (ds.all Char.isDigit = false → processPackageLine l = []) := by
  unfold String.toList at h2
  unfold packageHigherRuleFree packageBannerFree at h1
  simp only [Bool.and_eq_true, Bool.not_eq_true'] at h1
  obtain ⟨⟨⟨⟨⟨⟨⟨a1, a2⟩, a3⟩, a4⟩, a5⟩, a6⟩, a7⟩, a8⟩ := h1
  constructor
  · intro hd
    simp [processPackageLine, parseCapture, a1, a2, a3, a4, a5, a6, a7, a8,
      h2, hd]
  · intro hd
    simp [processPackageLine, parseCapture, a1, a2, a3, a4, a5, a6, a7, a8,
      h2, hd]

/-- C5 (witness): a line containing `67%` yields the single event with
fraction `67/100` (which equals `0.67` exactly in `f32`). -/
theorem C5_witness :
    processPackageLine "67%" = [ProgressUpdate.Progress ((67 : ℚ) / 100)] :=
  (C5_percent_rule "67%" ['6', '7'] (by decide) (by decide)).1 (by decide)

/-- C6 (counterexample): a line may contain the cook-started banner and
still emit a different stage label, because the if/else-if chain checks
the build banners first: on a line containing both the build-started
and the cook-started banner, the emitted event is
`Stage "Build started"`, not `Stage "Cooking..."`. -/
theorem C6_counterexample :
    strContains
        "********** BUILD COMMAND STARTED ********** ********** COOK COMMAND STARTED **********"
        cookStartedBanner = true ∧
    processPackageLine
        "********** BUILD COMMAND STARTED ********** ********** COOK COMMAND STARTED **********" =
      [ProgressUpdate.Stage "Build started"] ∧
    processPackageLine
        "********** BUILD COMMAND STARTED ********** ********** COOK COMMAND STARTED **********" ≠
      [ProgressUpdate.Stage "Cooking..."] :=
  ⟨by decide, rfl, by decide⟩

/-- C6 (amended): for every line that contains the cook-started banner
and neither of the two higher-priority banners (build started, build
completed), the package parser emits exactly `Stage "Cooking..."` — in
particular no `Progress` event for that line, stage markers taking
priority over the numeric recogniser. -/
theorem C6_cook_banner_rule (l : String)
    (h1 : strContains l buildStartedBanner = false)
    (h2 : strContains l buildCompletedBanner = false)
    (h3 : strContains l cookStartedBanner = true) :
    processPackageLine l = [ProgressUpdate.Stage "Cooking..."] := by
  simp [processPackageLine, h1, h2, h3]

/-- C6 (witness): the exact cook-started banner line yields the
`Stage "Cooking..."` event. -/
theorem C6_witness :
    processPackageLine "********** COOK COMMAND STARTED **********" =
      [ProgressUpdate.Stage "Cooking..."] :=
  C6_cook_banner_rule _ (by decide) (by decide) (by decide)

/-- C7 (confirmed): the per-line classification chain uses no state
other than the line and the recogniser profile, so two independent
parser instances fed the same finite stream produce identical event
sequences. -/
theorem C7_deterministic (p : Profile)
    (rs1 rs2 : List (Except String String)) (h : rs1 = rs2) :
    runWorker p rs1 = runWorker p rs2 := by
  rw [h]

/-- C7 (witness): the statement at a concrete stream. -/
theorem C7_witness :
    runWorker Profile.package [Except.ok "Cooking assets 40%"] =
      runWorker Profile.package [Except.ok "Cooking assets 40%"] :=
  C7_deterministic Profile.package _ _ rfl

/-- C8 (counterexample): when the spawn fails with an OS error, the
launch step does not return a `LaunchError` value to the caller: the
`.expect` call panics with the formatted message instead (the
functions' return type has no error channel at all). -/
theorem C8_counterexample :
    buildLaunch (Except.error "No such file or directory (os error 2)") =
      LaunchOutcome.panicked
        "Failed to execute build command: No such file or directory (os error 2)" ∧
    isReturnedError
        (buildLaunch
          (Except.error "No such file or directory (os error 2)")) = false :=
  ⟨rfl, rfl⟩

/-- C8 (amended): when the child process fails to start, both launch
functions fail synchronously by panicking with the `.expect` message
carrying the underlying OS error, rather than by returning an error
value; no retry exists (the launch step is evaluated exactly once per
invocation). -/
theorem C8_launch_failure_panics (e : String) :
    buildLaunch (Except.error e) =
        LaunchOutcome.panicked ("Failed to execute build command: " ++ e) ∧
      packageLaunch (Except.error e) =
        LaunchOutcome.panicked ("Failed to execute package command: " ++ e) ∧
      isReturnedError (buildLaunch (Except.error e)) = false ∧
      isReturnedError (packageLaunch (Except.error e)) = false :=
  ⟨rfl, rfl, rfl, rfl⟩

/-- C9 (confirmed): each line produces at most one event under either
profile, and a line matching none of the profile's rules produces no
event. -/
theorem C9_at_most_one_event_per_line (p : Profile) (l : String) :
    (processLine p l).length ≤ 1 ∧
      (matchesRule p l = false → processLine p l = []) := by
  refine ⟨processLine_length_le p l, ?_⟩
  intro h
  cases p with
  | build =>
    unfold matchesRule matchesBuildRule at h
    rw [Bool.or_eq_false_iff] at h
    obtain ⟨ha, hb⟩ := h
    cases hfb : firstBracket l.toList with
    | none =>
      unfold String.toList at hfb
      simp [processLine, processBuildLine, ha, hfb]
    | some x =>
      rw [hfb] at hb
      simp at hb
  | package =>
    unfold matchesRule matchesPackageRule at h
    simp only [Bool.or_eq_false_iff] at h
    obtain ⟨⟨⟨⟨⟨⟨⟨⟨a1, a2⟩, a3⟩, a4⟩, a5⟩, a6⟩, a7⟩, a8⟩, a9⟩ := h
    cases hfp : firstPercentCapture l.toList with
    | none =>
      unfold String.toList at hfp
      simp [processLine, processPackageLine, a1, a2, a3, a4, a5, a6, a7, a8,
        hfp]
    | some x =>
      rw [hfp] at a9
      simp at a9

/-- C9 (witness): the statement at a concrete non-matching line. -/
theorem C9_witness :
    (processLine Profile.package "plain line").length ≤ 1 ∧
      processLine Profile.package "plain line" = [] :=
  ⟨(C9_at_most_one_event_per_line Profile.package "plain line").1,
    (C9_at_most_one_event_per_line Profile.package "plain line").2
      (by decide)⟩

/-- C10 (confirmed): the build worker never emits a `Stage` event for
any input stream: its chain only recognises the terminal marker and the
bracket counter, so every emitted event is `Progress` or `Finished`. -/
theorem C10_build_never_emits_stage (rs : List (Except String String)) :
    (runWorker Profile.build rs).all (fun u => !(isStageB u)) = true := by
  induction rs with
  | nil => simp [runWorker]
  | cons r t ih =>
    rw [runWorker, List.all_append, Bool.and_eq_true]
    refine ⟨?_, ih⟩
    cases r with
    | error e => simp [processLineResult]
    | ok l =>
      simpa [processLineResult, processLine] using
        processBuildLine_no_stage l
